import Mathlib

/-!
Shallow embedding of `src/cnc.py` (SanteriHei/GCodeReader): a line-oriented
G-code interpreter.  Python strings are modelled as Lean `String`s (lines are
assumed to contain no embedded newline, as they come from `readlines` and are
stripped); machine actuator calls are recorded as a trace (`Act` list);
Python exceptions become the `Err` sum carrying exactly the data the source
interpolates into each message.  Numeric values are modelled exactly as
rationals / integers.
-/

namespace GCodeReader

/-- The ASCII whitespace set of Python `str.strip` and of the regex class
`\s` (unicode spaces are irrelevant to this development). -/
def pyWs (c : Char) : Bool :=
  c == ' ' || c == '\t' || c == '\n' || c == '\r' || c == '\x0b' || c == '\x0c'

/-- Python `str.strip()`: drop leading and trailing whitespace. -/
def pyStrip (s : String) : String :=
  ⟨((s.data.dropWhile pyWs).reverse.dropWhile pyWs).reverse⟩

/-- Helper for `pySplit`: split a character list on each single `' '`,
keeping empty pieces, as Python `str.split(" ")` does. -/
def splitSpaceAux : List Char → List Char → List (List Char)
  | [], acc => [acc.reverse]
  | ' ' :: rest, acc => acc.reverse :: splitSpaceAux rest []
  | c :: rest, acc => splitSpaceAux rest (c :: acc)

/-- Python `line.split(" ")` (source line 150). -/
def pySplit (s : String) : List String :=
  (splitSpaceAux s.data []).map fun cs => ⟨cs⟩

/-- Python `s.startswith(c)` for a single-character needle. -/
def headIs (s : String) (c : Char) : Bool :=
  match s.data with
  | [] => false
  | d :: _ => d == c

/-- Python slicing `s[1:]` (strings are sequences of code points). -/
def strTail (s : String) : String := ⟨s.data.drop 1⟩

/-- Python indexing `s[0]` as a one-character string (used for key
resolution of S/T/F tokens, where the token is known to be non-empty). -/
def strTake1 (s : String) : String := ⟨s.data.take 1⟩

/-- Python `s.upper()` restricted to ASCII. -/
def pyUpper (s : String) : String := ⟨s.data.map Char.toUpper⟩

/-- Decimal digit run to a natural number. -/
def digitsToNat (cs : List Char) : Nat :=
  cs.foldl (fun a c => 10 * a + (c.toNat - 48)) 0

/-- Core of the model of Python `float()`: unsigned decimal literals
(`"10"`, `"10.000"`, `"1."`, `".5"`).  Exponents, `inf`/`nan` and
surrounding whitespace are not modelled; every literal this repository's
claims evaluate is a plain decimal, represented exactly as a rational. -/
def pyFloatCore (cs : List Char) : Option ℚ :=
  match cs.span Char.isDigit with
  | (ip, []) => if ip.isEmpty then none else some (digitsToNat ip : ℚ)
  | (ip, '.' :: fp) =>
    if fp.all Char.isDigit && (!ip.isEmpty || !fp.isEmpty) then
      some (mkRat (digitsToNat (ip ++ fp)) (10 ^ fp.length))
    else none
  | _ => none

/-- Model of Python `float(s)` on decimal literals with optional sign. -/
def pyFloat (s : String) : Option ℚ :=
  match s.data with
  | '-' :: cs => (pyFloatCore cs).map Neg.neg
  | '+' :: cs => pyFloatCore cs
  | cs => pyFloatCore cs

/-- Core of the model of Python `int()`: unsigned decimal digit runs. -/
def pyIntCore (cs : List Char) : Option ℤ :=
  if !cs.isEmpty && cs.all Char.isDigit then some (digitsToNat cs : ℤ) else none

/-- Model of Python `int(s)` on decimal literals with optional sign. -/
def pyInt (s : String) : Option ℤ :=
  match s.data with
  | '-' :: cs => (pyIntCore cs).map Neg.neg
  | '+' :: cs => pyIntCore cs
  | cs => pyIntCore cs

/-- `_COMMENT_PATTERN = ^\(.*\)$` via `re.match` on a stripped line with no
embedded newline: starts with `(` and ends with `)` (length at least 2). -/
def is_comment (s : String) : Bool :=
  match s.data with
  | '(' :: rest => rest.getLast? == some ')'
  | _ => false

/-- `_PROGRAM_NUM_PATTERN = ^O[0-9]{4}$`: the whole line is `O` followed by
exactly four digits. -/
def is_program_number (s : String) : Bool :=
  match s.data with
  | 'O' :: ds => ds.length == 4 && ds.all Char.isDigit
  | _ => false

/-- After the mandatory first digit of `N[0-9]+`: skip the remaining digit
run, then require one `\s` character (the rest `.*$` always matches a line
with no embedded newline). -/
def skipDigitsNeedsWs : List Char → Bool
  | [] => false
  | c :: cs => if c.isDigit then skipDigitsNeedsWs cs else pyWs c

/-- `_CMD_PATTERN = ^N[0-9]+\s.*$` via `re.match`: a leading `N`, one or
more digits, a whitespace character, then anything. -/
def isCmdLine (s : String) : Bool :=
  match s.data with
  | 'N' :: c :: cs => c.isDigit && skipDigitsNeedsWs (c :: cs)
  | _ => false

/-- `_CMD_START_PATTERN = ^N[0-9]+|^G[0-9]+|^M[0-9]+|^S[0-9]+|^F[0-9]+` via
`re.match`: the token starts with one of the five letters followed by at
least one digit. -/
def isCmdStart (t : String) : Bool :=
  match t.data with
  | c :: d :: _ =>
    (c == 'N' || c == 'G' || c == 'M' || c == 'S' || c == 'F') && d.isDigit
  | _ => false

/-- One recorded machine-actuator call (or informational print) issued by a
command handler.  `print` covers the purely informational `print(...)`
lambdas and the "Set rapid positioning" message; the named constructors are
the `MachineClient` actuator methods. -/
inductive Act where
  | print (msg : String)
  | home
  | move (x y z : ℚ)
  | moveX (v : ℚ)
  | moveY (v : ℚ)
  | moveZ (v : ℚ)
  | setFeedRate (v : ℚ)
  | setSpindleSpeed (v : ℤ)
  | changeTool (toolName : String)
  | coolantOn
  | coolantOff
  deriving DecidableEq, Repr

/-- The exceptions the parser raises, carrying exactly the data the source
interpolates into each message:
`structural` = `RuntimeError` "[Line ln]: Expected a command starting with N*";
`unknownCode` = `RuntimeError` "[Line ln]: Unknown code tok";
`unknownParam` = `RuntimeError` "[Line ln]: Unknown parameter tok for code: code";
`malformedValue` = `ValueError` "[Line ln]: Could not parse ... tok ... code";
`assertionFailed` = the `assert len(gcode) > 1` guards. -/
inductive Err where
  | structural (ln : Nat)
  | unknownCode (ln : Nat) (tok : String)
  | unknownParam (ln : Nat) (tok : String) (code : String)
  | malformedValue (ln : Nat) (tok : String) (code : String)
  | assertionFailed (code : String)
  deriving DecidableEq, Repr

/-- `Cmd = namedtuple("Cmd", ["n_args", "fn"])`: maximum argument count and
handler.  A handler takes the originating token, the line number and the
extracted argument tokens, and produces a trace of actuator calls or an
error. -/
structure Cmd where
  n_args : Nat
  fn : String → Nat → List String → Except Err (List Act)

/-- `MachineClient._parse_tool`: the characters of the resolved token after
its first character are the tool name; the token must be longer than one
character (assert). -/
def parse_tool (gcode : String) (_ln : Nat) (_args : List String) :
    Except Err (List Act) :=
  if gcode.length > 1 then .ok [.changeTool (strTail gcode)]
  else .error (.assertionFailed gcode)

/-- `MachineClient._parse_feedrate`: the token's suffix after `F` parsed as
a float; non-numeric raises `ValueError` citing the token. -/
def parse_feedrate (gcode : String) (ln : Nat) (_args : List String) :
    Except Err (List Act) :=
  if gcode.length > 1 then
    match pyFloat (strTail gcode) with
    | some v => .ok [.setFeedRate v]
    | none => .error (.malformedValue ln gcode gcode)
  else .error (.assertionFailed gcode)

/-- `MachineClient._parse_speed`: the token's suffix after `S` parsed as an
integer; non-numeric raises `ValueError` citing the token. -/
def parse_speed (gcode : String) (ln : Nat) (_args : List String) :
    Except Err (List Act) :=
  if gcode.length > 1 then
    match pyInt (strTail gcode) with
    | some v => .ok [.setSpindleSpeed v]
    | none => .error (.malformedValue ln gcode gcode)
  else .error (.assertionFailed gcode)

/-- The multi-argument loop of `_parse_move` (source lines 277-294): fold the
argument tokens into x/y/z accumulators that start at 0.0.  `first` is
`args[0]`, which the source interpolates into the unknown-parameter message
(rather than the offending token `arg`); the `ValueError` branch cites the
current token `arg`. -/
def multiMove (gcode : String) (ln : Nat) (first : String) :
    List String → ℚ → ℚ → ℚ → Except Err (List Act)
  | [], x, y, z => .ok [.move x y z]
  | a :: rest, x, y, z =>
    if headIs a 'X' then
      match pyFloat (strTail a) with
      | some v => multiMove gcode ln first rest v y z
      | none => .error (.malformedValue ln a gcode)
    else if headIs a 'Y' then
      match pyFloat (strTail a) with
      | some v => multiMove gcode ln first rest x v z
      | none => .error (.malformedValue ln a gcode)
    else if headIs a 'Z' then
      match pyFloat (strTail a) with
      | some v => multiMove gcode ln first rest x y v
      | none => .error (.malformedValue ln a gcode)
    else .error (.unknownParam ln first gcode)

/-- `MachineClient._parse_move` (source lines 239-294): `G00` with no
arguments selects rapid positioning; one argument selects a single-axis
move (the float is parsed before the axis letter is checked); otherwise the
general `move` with absent axes defaulting to 0.0. -/
def parse_move (gcode : String) (ln : Nat) (args : List String) :
    Except Err (List Act) :=
  if pyUpper gcode == "G00" && args.isEmpty then
    .ok [.print "Set rapid positioning"]
  else
    match args with
    | [a] =>
      match pyFloat (strTail a) with
      | none => .error (.malformedValue ln a gcode)
      | some v =>
        if headIs a 'X' then .ok [.moveX v]
        else if headIs a 'Y' then .ok [.moveY v]
        else if headIs a 'Z' then .ok [.moveZ v]
        else .error (.unknownParam ln a gcode)
    | _ => multiMove gcode ln (args.headD "") args 0 0 0

/-- `MachineClient._KNOWN_COMMANDS` built in `__init__` (source lines
24-54), as an association list in source order. -/
def KNOWN_COMMANDS : List (String × Cmd) :=
  [ ("G00", ⟨3, parse_move⟩),
    ("G01", ⟨3, parse_move⟩),
    ("G17", ⟨0, fun _ _ _ => .ok [.print "Select XY plane"]⟩),
    ("G21", ⟨0, fun _ _ _ => .ok [.print "Set programming in inches"]⟩),
    ("G28", ⟨3, fun _ _ _ => .ok [.home]⟩),
    ("G40", ⟨0, fun _ _ _ => .ok [.print "Set tool radius compensation off"]⟩),
    ("G49", ⟨0, fun _ _ _ =>
      .ok [.print "Cancel tool length offset compensation"]⟩),
    ("G54", ⟨0, fun _ _ _ => .ok []⟩),
    ("G80", ⟨0, fun _ _ _ => .ok [.print "Cancel canned cycle"]⟩),
    ("G90", ⟨0, fun _ _ _ => .ok []⟩),
    ("G91", ⟨0, fun _ _ _ => .ok []⟩),
    ("G94", ⟨0, fun _ _ _ => .ok [.print "Set feedrate in per minutes"]⟩),
    ("M03", ⟨0, fun _ _ _ => .ok []⟩),
    ("M05", ⟨0, fun _ _ _ => .ok []⟩),
    ("M06", ⟨0, parse_tool⟩),
    ("M09", ⟨0, fun _ _ _ => .ok [.coolantOff]⟩),
    ("M30", ⟨0, fun _ _ _ => .ok []⟩),
    ("T", ⟨1, parse_tool⟩),
    ("S", ⟨0, parse_speed⟩),
    ("F", ⟨0, parse_feedrate⟩) ]

/-- The interpreter instance: `__init__` stores the command registry. -/
structure MachineClient where
  registry : List (String × Cmd)

/-- `MachineClient()` constructor: builds the registry afresh. -/
def MachineClient.init : Unit → MachineClient :=
  fun _ => { registry := KNOWN_COMMANDS }

/-- The loop body of `MachineClient.extract_args` (source lines 339-345):
`fuel` is the remaining number of iterations `max_idx - j`. -/
def extract_args_loop : List String → Nat → List String
  | _, 0 => []
  | [], _ + 1 => []
  | p :: ps, m + 1 => if isCmdStart p then [] else p :: extract_args_loop ps m

/-- `MachineClient.extract_args(parts, max_n_args)`: scan at most
`min(len(parts), max_n_args)` tokens, stopping at the first token that
matches `_CMD_START_PATTERN`. -/
def extract_args (parts : List String) (max_n_args : Nat) : List String :=
  extract_args_loop parts (min parts.length max_n_args)

/-- Key resolution of `parse_gcode` (source lines 161-168): `G`/`M` tokens
key on the full token, `S`/`T`/`F` tokens key on the single leading letter,
anything else is unresolved. -/
def resolveKey (p : String) : Option String :=
  if headIs p 'G' || headIs p 'M' then some p
  else if headIs p 'S' || headIs p 'T' || headIs p 'F' then some (strTake1 p)
  else none

/-- The token-dispatch `while` loop of `parse_gcode` (source lines 151-178),
fuelled by the token count: each iteration consumes at least one token, so
with initial fuel `parts.length` the fuel is never exhausted before the
token list is. -/
def run_parts_fuel (reg : List (String × Cmd)) (ln : Nat) :
    Nat → List String → Except Err (List Act)
  | _, [] => .ok []
  | 0, _ :: _ => .ok []
  | fuel + 1, p :: rest =>
    if headIs p 'N' then run_parts_fuel reg ln fuel rest
    else
      match resolveKey p with
      | none => .error (.unknownCode ln p)
      | some key =>
        match reg.lookup key with
        | none => .error (.unknownCode ln p)
        | some cmd =>
          let args := extract_args rest cmd.n_args
          match cmd.fn p ln args with
          | .error e => .error e
          | .ok acts =>
            match run_parts_fuel reg ln fuel (rest.drop args.length) with
            | .error e => .error e
            | .ok more => .ok (acts ++ more)

/-- Dispatch all tokens of one line. -/
def run_parts (reg : List (String × Cmd)) (ln : Nat) (parts : List String) :
    Except Err (List Act) :=
  run_parts_fuel reg ln parts.length parts

/-- Per-line processing of `parse_gcode` (source lines 143-178): the line
must match `_CMD_PATTERN` before it is split and dispatched; otherwise a
fatal structural error citing the line number. -/
def process_line (reg : List (String × Cmd)) (ln : Nat) (line : String) :
    Except Err (List Act) :=
  if isCmdLine line then run_parts reg ln (pySplit line)
  else .error (.structural ln)

/-- The per-line loop of `parse_gcode`: processes numbered surviving lines
in order, concatenating the actuator traces; the first error aborts. -/
def run_lines (reg : List (String × Cmd)) :
    List (Nat × String) → Except Err (List Act)
  | [] => .ok []
  | (ln, line) :: rest =>
    match process_line reg ln line with
    | .error e => .error e
    | .ok acts =>
      match run_lines reg rest with
      | .error e => .error e
      | .ok more => .ok (acts ++ more)

/-- `_non_empty_lines` (source lines 348-364): yield the stripped form of
every line that is non-empty, not a full-line comment, not a program number
and not the `%` block delimiter. -/
def non_empty_lines : List String → List String
  | [] => []
  | l :: ls =>
    if (pyStrip l).length ≠ 0 ∧ is_comment (pyStrip l) = false
        ∧ is_program_number (pyStrip l) = false ∧ pyStrip l ≠ "%" then
      pyStrip l :: non_empty_lines ls
    else non_empty_lines ls

/-- `enumerate(_non_empty_lines(lines), start=1)` (source line 141). -/
def numbered_lines (lines : List String) : List (Nat × String) :=
  List.enumFrom 1 (non_empty_lines lines)

/-- `MachineClient.parse_gcode` on an already-read list of raw lines (file
access is out of scope): classify and number the lines, then dispatch each
in order. -/
def parse_gcode (mc : MachineClient) (lines : List String) :
    Except Err (List Act) :=
  run_lines mc.registry (numbered_lines lines)

/-- Two independently constructed interpreter instances (for the
determinism claim). -/
def client_one : MachineClient := MachineClient.init ()

/-- Second independently constructed interpreter instance. -/
def client_two : MachineClient := MachineClient.init ()

/-- Spec formulation of the Line Classifier's per-line filter, from the
spec's words: the trimmed line survives iff it is non-empty, not a
full-line parenthesized comment, not a program-number line, and not the
literal `%`. -/
def survivesSpec (s : String) : Bool :=
  !(s.length == 0) && !(is_comment s) && !(is_program_number s) && !(s == "%")

/-- Spec formulation of the Line Classifier: trim every line and keep the
survivors, in order. -/
def classifierSpec (lines : List String) : List String :=
  (lines.map pyStrip).filter survivesSpec

/-- Does the parse result cite an unknown-parameter error at the given line
for the given token?  (Projection used to state counterexamples.) -/
def citesUnknownParam (r : Except Err (List Act)) (ln : Nat) (tok : String) :
    Bool :=
  match r with
  | .error (.unknownParam l t _) => l == ln && t == tok
  | _ => false

/-- Is the parse result a structural (line-shape) error, at any line? -/
def isStructuralResult (r : Except Err (List Act)) : Bool :=
  match r with
  | .error (.structural _) => true
  | _ => false

/-- Maximum argument arity a key is registered with, if registered. -/
def cmdArity (mc : MachineClient) (key : String) : Option Nat :=
  (mc.registry.lookup key).map Cmd.n_args

/-- Decidable equality of parse results, for stating concrete runs. -/
instance : DecidableEq (Except Err (List Act)) := fun a b =>
  match a, b with
  | .ok x, .ok y => decidable_of_iff (x = y) (by simp)
  | .error e, .error f => decidable_of_iff (e = f) (by simp)
  | .ok _, .error _ => isFalse (by simp)
  | .error _, .ok _ => isFalse (by simp)

/-- The recursive classifier agrees with the spec's filter formulation. -/
theorem non_empty_lines_eq_classifierSpec (lines : List String) :
    non_empty_lines lines = classifierSpec lines := by
  induction lines with
  | nil => rfl
  | cons l ls ih =>
    simp only [non_empty_lines, classifierSpec, List.map_cons, List.filter_cons]
    by_cases h : survivesSpec (pyStrip l) = true
    · have hp : (pyStrip l).length ≠ 0 ∧ is_comment (pyStrip l) = false
          ∧ is_program_number (pyStrip l) = false ∧ pyStrip l ≠ "%" := by
        simpa [survivesSpec, and_assoc] using h
      rw [if_pos hp, h]
      simpa [classifierSpec] using ih
    · have hp : ¬((pyStrip l).length ≠ 0 ∧ is_comment (pyStrip l) = false
          ∧ is_program_number (pyStrip l) = false ∧ pyStrip l ≠ "%") := by
        simpa [survivesSpec, and_assoc] using h
      rw [if_neg hp, Bool.not_eq_true] at *
      rw [h]
      simpa [classifierSpec] using ih

/-- C1: the argument extractor scans at most `min(len(parts), max_n_args)`
positions, stops at the first token matching the new-command-start pattern,
and returns exactly the prefix of tokens scanned before that stop; in
particular with max arity 3 on `X1 Y2 N9 G01` it returns `[X1, Y2]`. -/
theorem claim_C1 :
    (∀ (parts : List String) (n : Nat),
        extract_args parts n = (parts.take n).takeWhile (fun t => !isCmdStart t)) ∧
    extract_args ["X1", "Y2", "N9", "G01"] 3 = ["X1", "Y2"] := by
  refine ⟨?_, by decide⟩
  intro parts
  induction parts with
  | nil => intro n; simp [extract_args, extract_args_loop]
  | cons p ps ih =>
    intro n
    cases n with
    | zero => simp [extract_args, extract_args_loop]
    | succ m =>
      show extract_args_loop (p :: ps) (min (ps.length + 1) (m + 1)) = _
      rw [Nat.succ_min_succ]
      simp only [extract_args_loop, List.take_succ_cons, List.takeWhile_cons]
      cases h : isCmdStart p with
      | true => simp [h]
      | false => simpa [h] using ih m

/-- C2 counterexample: parsing the single line `N6 G01 X1 Y2 Q3` does not
produce an unknown-parameter error citing token `Q3` at line 6. -/
theorem claim_C2_counterexample :
    citesUnknownParam
      (parse_gcode (MachineClient.init ()) ["N6 G01 X1 Y2 Q3"]) 6 "Q3" = false := by
  decide

/-- C2 (amended): parsing the single line `N6 G01 X1 Y2 Q3` fails with a
fatal UnknownParameterError citing raw token `X1` (the code interpolates
`args[0]`, not the offending argument) and line 1 (the surviving-line
ordinal of a one-line input). -/
theorem claim_C2 :
    parse_gcode (MachineClient.init ()) ["N6 G01 X1 Y2 Q3"]
      = .error (.unknownParam 1 "X1" "G01") := by
  decide

/-- C3 counterexample: parsing the single line `N7 ZZZ` does not fail with
a structural (line-shape) error at any line number. -/
theorem claim_C3_counterexample :
    isStructuralResult (parse_gcode (MachineClient.init ()) ["N7 ZZZ"]) = false := by
  decide

/-- C3 (amended): parsing the single line `N7 ZZZ` fails with a fatal
UnknownCodeError citing token `ZZZ` and line 1: the line passes the coarse
shape check (it starts with an N-number token followed by a space), and
`ZZZ` then fails command-key resolution. -/
theorem claim_C3 :
    parse_gcode (MachineClient.init ()) ["N7 ZZZ"]
      = .error (.unknownCode 1 "ZZZ") := by
  decide

/-- C4 counterexample: the line `G01 X1` has no leading N-number token but
has space-separated content, and it is rejected by the coarse structural
check (fatal structural error citing line 1). -/
theorem claim_C4_counterexample :
    parse_gcode (MachineClient.init ()) ["G01 X1"] = .error (.structural 1) := by
  decide

/-- C4 (amended): every surviving line is first checked against the coarse
structural pattern, in which the leading N-number token is mandatory (`N`,
one or more digits, a whitespace character, then further content); a line
failing the pattern is rejected before tokenization with a fatal structural
error citing the line number, and every line without a leading `N` fails
the pattern. -/
theorem claim_C4 :
    (∀ (reg : List (String × Cmd)) (ln : Nat) (line : String),
        isCmdLine line = false →
        process_line reg ln line = .error (.structural ln)) ∧
    (∀ s : String, headIs s 'N' = false → isCmdLine s = false) := by
  constructor
  · intro reg ln line h
    simp [process_line, h]
  · intro s h
    unfold isCmdLine
    split
    · rename_i c cs heq
      rw [headIs, heq] at h
      simp at h
    · rfl

/-- C4 witness: instantiating the amended claim at the concrete line
`G01 X1`. -/
theorem claim_C4_witness :
    isCmdLine "G01 X1" = false ∧
      process_line (MachineClient.init ()).registry 1 "G01 X1"
        = .error (.structural 1) ∧
      headIs "G01 X1" 'N' = false :=
  ⟨by decide, claim_C4.1 (MachineClient.init ()).registry 1 "G01 X1" (by decide),
    by decide⟩

/-- C5 (code bug): parsing the single line `N4 M06 T12` invokes the
tool-change action twice — `change_tool("06")` for the `M06` token (whose
suffix after `M` is taken as a tool name) and then `change_tool("12")` for
`T12` — not the single call `change_tool("12")` the spec expects. -/
theorem claim_C5 :
    parse_gcode (MachineClient.init ()) ["N4 M06 T12"]
      = .ok [.changeTool "06", .changeTool "12"] := by
  decide

/-- C6: parsing the single line `N2 G00 X10.000 Y5.000` invokes the
multi-axis motion action exactly once with x = 10.0, y = 5.0 and z = 0.0,
the omitted Z axis defaulting to 0.0 in the multi-argument path. -/
theorem claim_C6 :
    parse_gcode (MachineClient.init ()) ["N2 G00 X10.000 Y5.000"]
      = .ok [.move 10 5 0] := by
  decide

/-- C7: the Line Classifier yields exactly the trimmed surviving lines (non
empty, not a full-line comment, not a program number, not `%`) in original
order, numbered 1-based over surviving lines only; filtered lines
interspersed among surviving ones do not affect the ordinals. -/
theorem claim_C7 :
    (∀ lines, numbered_lines lines = List.enumFrom 1 (classifierSpec lines)) ∧
    (∀ pre junk post : List String,
        (∀ l ∈ junk, survivesSpec (pyStrip l) = false) →
        numbered_lines (pre ++ junk ++ post) = numbered_lines (pre ++ post)) := by
  have key : ∀ lines, numbered_lines lines = List.enumFrom 1 (classifierSpec lines) := by
    intro lines
    rw [numbered_lines, non_empty_lines_eq_classifierSpec]
  refine ⟨key, ?_⟩
  intro pre junk post h
  have hnil : (junk.map pyStrip).filter survivesSpec = [] := by
    rw [List.filter_eq_nil_iff]
    intro a ha
    rcases List.mem_map.mp ha with ⟨l, hl, rfl⟩
    simp [h l hl]
  rw [key, key]
  simp [classifierSpec, List.filter_append, hnil]

/-- C7 witness: a blank line, a full-line comment, a program number and a
`%` delimiter interspersed between two command lines leave the surviving
lines' ordinals unchanged. -/
theorem claim_C7_witness :
    (∀ l ∈ ["   ", "(tool change)", "O1234", "%"], survivesSpec (pyStrip l) = false) ∧
      numbered_lines (["N1 G90"] ++ ["   ", "(tool change)", "O1234", "%"] ++ ["N2 G01 X1.5"])
        = numbered_lines (["N1 G90"] ++ ["N2 G01 X1.5"]) :=
  ⟨by decide,
    claim_C7.2 ["N1 G90"] ["   ", "(tool change)", "O1234", "%"] ["N2 G01 X1.5"] (by decide)⟩

/-- C8 counterexample: `G28` is registered with maximum arity 3 (not 0),
and dispatching `N1 G28 X1` consumes the token `X1` as an (ignored)
argument — the parse succeeds with the single actuator call `home` instead
of failing on `X1` as an unresolvable code. -/
theorem claim_C8_counterexample :
    cmdArity (MachineClient.init ()) "G28" = some 3 ∧
      extract_args ["X1"] 3 = ["X1"] ∧
      parse_gcode (MachineClient.init ()) ["N1 G28 X1"] = .ok [.home] := by
  refine ⟨by decide, by decide, by decide⟩

/-- C8 (amended): `G28` is registered with maximum arity 3: dispatching it
consumes up to three following non-command-start tokens as arguments, its
handler ignores whatever arguments were extracted, and it always invokes
the actuator's home operation with no parameters. -/
theorem claim_C8 :
    ∃ cmd : Cmd, (MachineClient.init ()).registry.lookup "G28" = some cmd ∧
      cmd.n_args = 3 ∧
      (∀ (tok : String) (ln : Nat) (args : List String),
        cmd.fn tok ln args = .ok [.home]) ∧
      parse_gcode (MachineClient.init ()) ["N1 G28 X0 Y0 Z0"] = .ok [.home] :=
  ⟨⟨3, fun _ _ _ => .ok [.home]⟩, rfl, rfl, fun _ _ _ => rfl, by decide⟩

/-- C9: parsing the same well-formed input line sequence with two
independently constructed interpreter instances produces identical
sequences of actuator calls. -/
theorem claim_C9 :
    ∀ (lines : List String) (t₁ t₂ : List Act),
      parse_gcode client_one lines = .ok t₁ →
      parse_gcode client_two lines = .ok t₂ → t₁ = t₂ := by
  intro lines t₁ t₂ h₁ h₂
  have hc : client_one = client_two := rfl
  rw [hc, h₂] at h₁
  exact (Except.ok.inj h₁).symm

/-- C9 witness: both instances parse `N1 G90` to the empty actuator
trace. -/
theorem claim_C9_witness :
    (parse_gcode client_one ["N1 G90"] = .ok []) ∧ ([] : List Act) = [] :=
  ⟨by decide, claim_C9 ["N1 G90"] [] [] (by decide) (by decide)⟩

/-- C10: dispatching G01 with zero extracted argument tokens neither
signals rapid positioning nor errors: it takes the multi-argument path with
all axes defaulted and invokes the multi-axis motion action with
x = 0.0, y = 0.0, z = 0.0. -/
theorem claim_C10 :
    (∀ ln : Nat, parse_move "G01" ln [] = .ok [.move 0 0 0]) ∧
    parse_gcode (MachineClient.init ()) ["N1 G01"] = .ok [.move 0 0 0] :=
  ⟨fun _ => rfl, by decide⟩

end GCodeReader
